import Mathlib

/-!
Shallow embedding of the payload-master repository's request-handling and
data-aggregation logic, written for verification of its natural-language
specification.

The embedded code comes from:
  * the Payload config module (collections `authors`, `posts`, custom
    endpoints `postsStatsEndpoint`, `publishAllEndpoint`, `healthEndpoint`);
  * the custom route module `/api/custom/posts` (`slugify`, `GET`, `POST`);
  * the generated CRUD route wrapper `src/app/(payload)/api/[...slug]/route.ts`.

External framework operations (`payload.find`, `payload.create`,
`payload.update`) are modelled over an explicit store state following the
framework's documented semantics: `find` with a `limit` returns the first
`limit` matching documents together with `totalDocs`, the total number of
matching documents; `create` appends a document with a fresh identifier;
`update` patches the document with the given identifier.
-/

namespace PayloadMaster

/-- The `status` select field of the `posts` collection: its options are
exactly `draft` and `published` (default `draft`). -/
inductive Status where
  | draft
  | published
deriving DecidableEq, Repr

/-- A document of the `posts` collection, with the fields the embedded
handlers read or write. -/
structure Post where
  id : Nat
  title : String
  slug : String
  excerpt : Option String := none
  status : Status := Status.draft
  author : Nat := 0
  publishedOn : Option String := none
deriving DecidableEq, Repr

/-- A document of the `authors` collection. -/
structure Author where
  id : Nat
  name : String
  bio : Option String := none
deriving DecidableEq, Repr

/-! ## slugify (custom route module)

The source chains five string operations: `toLowerCase()`, `trim()`, a
global replace deleting every character outside the class `[a-z0-9\s-]`,
a global replace of each whitespace run `\s+` by a single hyphen, and a
global replace of each hyphen run by a single hyphen. -/

/-- The character class `\s` of JavaScript regular expressions (and the set
trimmed by `String.prototype.trim`): ASCII whitespace, NBSP, the Unicode
space separators, the line separators and the BOM. -/
def isJsSpace (c : Char) : Bool :=
  c.toNat = 0x20 || c.toNat = 0x09 || c.toNat = 0x0a || c.toNat = 0x0d ||
  c.toNat = 0x0b || c.toNat = 0x0c || c.toNat = 0xa0 || c.toNat = 0x1680 ||
  (0x2000 ≤ c.toNat && c.toNat ≤ 0x200a) || c.toNat = 0x2028 ||
  c.toNat = 0x2029 || c.toNat = 0x202f || c.toNat = 0x205f ||
  c.toNat = 0x3000 || c.toNat = 0xfeff

/-- Helper for `replaceRuns`: `inRun` records whether the previous
character belonged to a run being replaced. -/
def replaceRunsAux (p : Char → Bool) (r : Char) : Bool → List Char → List Char
  | _, [] => []
  | inRun, c :: cs =>
    if p c then
      if inRun then replaceRunsAux p r true cs
      else r :: replaceRunsAux p r true cs
    else c :: replaceRunsAux p r false cs

/-- `.replace(/X+/g, r)` for a character class `X` given by the predicate
`p`: every maximal run of characters satisfying `p` is replaced by the
single character `r`. -/
def replaceRuns (p : Char → Bool) (r : Char) (cs : List Char) : List Char :=
  replaceRunsAux p r false cs

/-- `String.prototype.trim`: remove leading and trailing whitespace. -/
def jsTrim (cs : List Char) : List Char :=
  ((cs.dropWhile isJsSpace).reverse.dropWhile isJsSpace).reverse

/-- `[a-z0-9\s-]`: the characters KEPT by `.replace(/[^a-z0-9\s-]/g, "")`. -/
def isSlugKept (c : Char) : Bool :=
  ('a' ≤ c && c ≤ 'z') || ('0' ≤ c && c ≤ '9') || isJsSpace c || c = '-'

/-- The slug derivation function of the custom route module, chaining
`toLowerCase`, `trim`, the strip of characters outside `[a-z0-9\s-]`, the
collapse of whitespace runs to a single hyphen, and the collapse of hyphen
runs to a single hyphen. -/
def slugify (input : String) : String :=
  let cs := input.data.map Char.toLower
  let cs := jsTrim cs
  let cs := cs.filter isSlugKept
  let cs := replaceRuns isJsSpace '-' cs
  let cs := replaceRuns (fun c => c = '-') '-' cs
  String.mk cs

/-! ## Store operations

`payload.find` with a `limit` returns at most `limit` matching documents
(`docs`) and the total number of matching documents (`totalDocs`). -/

/-- Result of a `payload.find` call on the posts collection. -/
structure FindResult where
  docs : List Post
  totalDocs : Nat
deriving DecidableEq, Repr

/-- `payload.find({ collection: "posts", limit })` with no `where` filter:
every document matches. -/
def findPosts (posts : List Post) (lim : Nat) : FindResult :=
  { docs := posts.take lim, totalDocs := posts.length }

/-- `payload.find({ collection: "posts", where: { status: { equals: s } },
limit })`. -/
def findPostsByStatus (posts : List Post) (s : Status) (lim : Nat) : FindResult :=
  let matching := posts.filter (fun p => p.status = s)
  { docs := matching.take lim, totalDocs := matching.length }

/-- `payload.update({ collection: "posts", id, data: { status } })`:
patch the status of the document with the given identifier. -/
def updatePostStatus (posts : List Post) (id : Nat) (s : Status) : List Post :=
  posts.map (fun p => if p.id = id then { p with status := s } else p)

/-! ## Custom endpoint: GET /api/posts/stats (`postsStatsEndpoint`)

Reads up to 1000 posts with `depth: 0`, then returns
`{ total: allPosts.totalDocs,
   published: docs.filter(status === "published").length,
   draft: docs.filter(status === "draft").length, timestamp }`. -/

/-- Response body of `GET /api/posts/stats`. -/
structure StatsResponse where
  total : Nat
  published : Nat
  draft : Nat
  timestamp : String
deriving DecidableEq, Repr

/-- Handler of the custom endpoint `GET /api/posts/stats`, over the posts
collection state and the current time. -/
def postsStatsEndpoint (posts : List Post) (now : String) : StatsResponse :=
  let allPosts := findPosts posts 1000
  { total := allPosts.totalDocs
  , published := (allPosts.docs.filter (fun p => p.status = Status.published)).length
  , draft := (allPosts.docs.filter (fun p => p.status = Status.draft)).length
  , timestamp := now }

/-! ## Custom endpoint: POST /api/posts/publish-all (`publishAllEndpoint`)

Reads up to 100 posts with `status = draft`, then updates each one to
`published` in a sequential `for` loop, incrementing `publishedCount`
after each successful update.  A failing `payload.update` aborts the loop:
the error propagates out of the handler, previous updates stay applied. -/

/-- Success body of `POST /api/posts/publish-all`. -/
structure PublishAllResponse where
  message : String
  publishedCount : Nat
deriving DecidableEq, Repr

/-- The sequential update loop of the publish-all handler.  `fails id`
says whether the store raises on `payload.update` of the document `id`
(the store is the only failure source the handler can hit).  Returns the
posts collection state after the loop stops, together with either the
success response or the propagated error. -/
def publishAllLoop (fails : Nat → Bool) :
    List Post → List Post → Nat → List Post × Except String PublishAllResponse
  | [], state, n =>
    (state, Except.ok { message := "Published " ++ toString n ++ " posts"
                      , publishedCount := n })
  | post :: rest, state, n =>
    if fails post.id then (state, Except.error "update failed")
    else publishAllLoop fails rest (updatePostStatus state post.id Status.published) (n + 1)

/-- Handler of the custom endpoint `POST /api/posts/publish-all`: the
draft read (cap 100) followed by the sequential update loop. -/
def publishAllEndpoint (fails : Nat → Bool) (posts : List Post) :
    List Post × Except String PublishAllResponse :=
  let drafts := findPostsByStatus posts Status.draft 100
  publishAllLoop fails drafts.docs posts 0

/-! ## Root endpoint: GET /api/health (`healthEndpoint`) -/

/-- Response body of `GET /api/health`. -/
structure HealthResponse where
  status : String
  timestamp : String
  payload : String
deriving DecidableEq, Repr

/-- Handler of the root custom endpoint `GET /api/health`.  The source
handler touches no store operation; the collection state argument records
that the store (whatever its state) is not consulted. -/
def healthEndpoint (store : List Post) (now : String) : HealthResponse :=
  { status := "ok", timestamp := now, payload := "running" }

/-! ## Custom route module: /api/custom/posts

The GET handler reads `limit` from the query string:
`Number(url.searchParams.get("limit") ?? "10")`, then calls
`payload.find({ collection: "posts",
limit: Number.isFinite(limit) ? limit : 10, depth: 1 })` and returns
`{ source, note, ...result }`. -/

/-- A JavaScript number as the GET handler observes it through
`Number.isFinite`: either a finite value or one of the non-finite values
(`NaN`, `Infinity`, `-Infinity`), which the handler never tells apart. -/
inductive JsNumber where
  | finite (v : ℚ)
  | nonFinite
deriving DecidableEq, Repr

/-- The arguments of the `payload.find` call issued by the GET handler. -/
structure FindQuery where
  collection : String
  limit : ℚ
  depth : Nat
deriving DecidableEq, Repr

/-- Response body of `GET /api/custom/posts`: the spread of the page
result (`docs`, `totalDocs`) plus the `source` tag and the `note`. -/
structure CustomListResponse where
  source : String
  note : String
  docs : List Post
  totalDocs : Nat
deriving DecidableEq, Repr

/-- The `payload.find` query built by the GET handler
(`jsNumber` is the JavaScript `Number` string conversion, external to the
repository; `limitParam` is `url.searchParams.get("limit")`, `none` when
the parameter is absent). -/
def customPostsGETQuery (jsNumber : String → JsNumber) (limitParam : Option String) :
    FindQuery :=
  let lim := jsNumber (limitParam.getD "10")
  { collection := "posts"
  , limit := match lim with
      | JsNumber.finite v => v
      | JsNumber.nonFinite => 10
  , depth := 1 }

/-- Handler of `GET /api/custom/posts`: issues the query against the
store (`findStore` is the store's answer to a find query) and wraps the
result verbatim. -/
def customPostsGET (jsNumber : String → JsNumber) (findStore : FindQuery → FindResult)
    (limitParam : Option String) : FindQuery × CustomListResponse :=
  let q := customPostsGETQuery jsNumber limitParam
  let result := findStore q
  (q, { source := "custom-api"
      , note := "This response is from /api/custom/posts (custom route), not Payload's built-in CRUD."
      , docs := result.docs
      , totalDocs := result.totalDocs })

/-! ### POST /api/custom/posts

`body = await req.json().catch(() => ({}))`; then title/slug/excerpt are
taken from the body when they are strings, `authorId` falls back to the
"API Bot" author when `undefined`, `null` or `""`, status is coerced to
`published` only on exact match of the string `"published"`, and
`publishedOn` is stamped with the current time under the same test. -/

/-- The request body as the POST handler reads it.  A field is `none`
when it is absent or fails the handler's `typeof`-style check (for
`authorId`: when it is `undefined`, `null` or `""`); `status` is the raw
string value of `body.status` when it is a string. -/
structure CreateBody where
  title : Option String := none
  slug : Option String := none
  excerpt : Option String := none
  status : Option String := none
  authorId : Option Nat := none
deriving DecidableEq, Repr

/-- The store state the custom POST handler touches: the authors and
posts collections, plus the next fresh identifier the store assigns on
`payload.create`. -/
structure Store where
  authors : List Author
  posts : List Post
  nextId : Nat
deriving DecidableEq, Repr

/-- Response body of `POST /api/custom/posts`. -/
structure CreateResponse where
  source : String
  created : Post
deriving DecidableEq, Repr

/-- The author-resolution step of the POST handler: when the body has no
usable `authorId`, find an author named exactly "API Bot" (limit 1); the
source reuses its id only under the truthiness test
`if (existing.docs[0]?.id)` — absent result or falsy id (for the numeric
identifiers of the model, the falsy id is 0) falls through to creating a
fresh "API Bot" author.  Returns the resolved id and the store after the
step. -/
def resolveAuthorId (store : Store) (body : CreateBody) : Nat × Store :=
  match body.authorId with
  | some i => (i, store)
  | none =>
    let found : Option Nat :=
      match (store.authors.filter (fun a => a.name = "API Bot")).take 1 with
      | a :: _ => if a.id = 0 then none else some a.id
      | [] => none
    match found with
    | some i => (i, store)
    | none =>
      let createdAuthor : Author :=
        { id := store.nextId
        , name := "API Bot"
        , bio := some "Created automatically by /api/custom/posts" }
      (createdAuthor.id,
       { store with authors := store.authors ++ [createdAuthor]
                  , nextId := store.nextId + 1 })

/-- Handler of `POST /api/custom/posts`, over the store state, the
current time and the parsed request body. -/
def customPostsPOST (store : Store) (now : String) (body : CreateBody) :
    Store × CreateResponse :=
  let title := body.title.getD "Custom API Post"
  let slug := body.slug.getD (slugify title)
  let resolved := resolveAuthorId store body
  let authorId := resolved.1
  let store1 := resolved.2
  let post : Post :=
    { id := store1.nextId
    , title := title
    , slug := slug
    , excerpt := some (body.excerpt.getD "Created by custom API")
    , status := if body.status = some "published" then Status.published else Status.draft
    , author := authorId
    , publishedOn := if body.status = some "published" then some now else none }
  ({ store1 with posts := store1.posts ++ [post], nextId := store1.nextId + 1 },
   { source := "custom-api", created := post })

/-! ## CRUD interception shim (generated route wrapper)

The exported `POST` clones the request when the path ends in
`/api/posts`, best-effort parses the body for a `title` to log, then
unconditionally returns `POSTHandler(req, ctx)`.  `GET`, `DELETE`,
`PATCH`, `PUT` and `OPTIONS` are the generated handlers re-exported
unchanged. -/

/-- An incoming HTTP request as the shim observes it: its URL path and
its raw body (left abstract: the shim only hands it to the JSON parser). -/
structure ShimRequest (β : Type) where
  pathname : String
  rawBody : β

/-- What a parsed JSON body offers the shim: possibly a `title` field
that is a string. -/
structure ParsedBody where
  title : Option String := none

/-- The side-channel log record the shim produces: `none` when the path
does not end in `/api/posts`, otherwise the logged title (`none` inside
when the body failed to parse or has no string `title`).  Parse failure
is swallowed by the `catch`. -/
def shimLog {β : Type} (parseJson : β → Option ParsedBody) (req : ShimRequest β) :
    Option (Option String) :=
  if req.pathname.endsWith "/api/posts" then
    some ((parseJson req.rawBody).bind (fun b => b.title))
  else none

/-- The exported `POST` of the route wrapper: the log record paired with
the response of the underlying generated handler, to which the untouched
request is delegated. -/
def shimPOST {β ρ : Type} (POSTHandler : ShimRequest β → ρ)
    (parseJson : β → Option ParsedBody) (req : ShimRequest β) :
    Option (Option String) × ρ :=
  (shimLog parseJson req, POSTHandler req)

/-- The exported `GET` (and likewise `DELETE`, `PATCH`, `PUT`,
`OPTIONS`): the generated handler itself. -/
def shimOtherVerb {β ρ : Type} (handler : ShimRequest β → ρ) : ShimRequest β → ρ :=
  handler

/-! ## Derived definitions and concrete test states -/

/-- The list of draft posts the publish-all handler reads: the draft
filter capped at 100 documents. -/
def publishAllDrafts (posts : List Post) : List Post :=
  (findPostsByStatus posts Status.draft 100).docs

/-- Failure oracle of a store that raises on no update. -/
def noFail : Nat → Bool := fun _ => false

/-- Failure oracle of a store that raises exactly on the update of
document 1. -/
def failSecond : Nat → Bool := fun i => i = 1

/-- A draft post with a given identifier (concrete test input). -/
def draftPost (i : Nat) : Post :=
  { id := i, title := "post", slug := "post", status := Status.draft }

/-- A two-post state: one draft, one published (concrete test input). -/
def smallPosts : List Post :=
  [draftPost 0, { draftPost 1 with status := Status.published }]

/-- A state of 1001 draft posts, one past the stats read cap. -/
def bigPosts : List Post := (List.range 1001).map draftPost

/-- A state of 101 draft posts, one past the publish-all read cap. -/
def manyDrafts : List Post := (List.range 101).map draftPost

/-- A concrete stand-in for the JavaScript `Number` conversion, for
witnesses: parses "10" and "7", anything else is `NaN`. -/
def jsNumberTest : String → JsNumber := fun s =>
  if s = "10" then JsNumber.finite 10
  else if s = "7" then JsNumber.finite 7
  else JsNumber.nonFinite

/-- A concrete store answer to find queries, for witnesses. -/
def findStoreTest : FindQuery → FindResult := fun _ => { docs := [], totalDocs := 0 }

/-- The empty store whose next fresh identifier is the falsy 0
(concrete test input). -/
def emptyStore : Store := { authors := [], posts := [], nextId := 0 }

/-- The empty store whose next fresh identifier is 1, as a store whose
identifiers are truthy assigns (concrete test input). -/
def initStore : Store := { authors := [], posts := [], nextId := 1 }

/-! ## Theorems -/

/-- C1 (counterexample): the spec's second example value is wrong.  The
source `slugify` never strips leading or trailing hyphens — `trim`
removes only whitespace and runs before the hyphen collapses — so
`slugify("---A---")` is `"-a-"`, not `"a"`. -/
theorem slugify_hyphen_example_refuted : slugify "---A---" ≠ "a" := by decide

/-- C1 (amended): `slugify` is a pure function of its input (determinism
and purity are inherent to the functional embedding), and on the spec's
example inputs it returns `"hello-world-foo"` and `"-a-"` respectively. -/
theorem slugify_example_values :
    slugify "Hello, World!  Foo" = "hello-world-foo" ∧ slugify "---A---" = "-a-" :=
  ⟨by decide, by decide⟩

/-- C9: the health handler consults no store operation — its result is
the same whatever the collection state — and always answers with status
`"ok"`, payload `"running"` and the current timestamp. -/
theorem healthEndpoint_static (s₁ s₂ : List Post) (now : String) :
    healthEndpoint s₁ now = healthEndpoint s₂ now ∧
    (healthEndpoint s₁ now).status = "ok" ∧
    (healthEndpoint s₁ now).payload = "running" ∧
    (healthEndpoint s₁ now).timestamp = now :=
  ⟨rfl, rfl, rfl, rfl⟩

/-- C7: the wrapped `POST` export returns exactly the response of the
underlying generated handler on the unmodified request, for every
request (any path, any body, including bodies on which the JSON parser
fails — `parseJson` is arbitrary); the interception only produces a log
record.  The other verb exports are the generated handlers unchanged. -/
theorem shim_transparent {β ρ : Type}
    (POSTHandler GETHandler DELETEHandler PATCHHandler PUTHandler
      OPTIONSHandler : ShimRequest β → ρ)
    (parseJson : β → Option ParsedBody) (req : ShimRequest β) :
    (shimPOST POSTHandler parseJson req).2 = POSTHandler req ∧
    shimOtherVerb GETHandler = GETHandler ∧
    shimOtherVerb DELETEHandler = DELETEHandler ∧
    shimOtherVerb PATCHHandler = PATCHHandler ∧
    shimOtherVerb PUTHandler = PUTHandler ∧
    shimOtherVerb OPTIONSHandler = OPTIONSHandler :=
  ⟨rfl, rfl, rfl, rfl, rfl, rfl⟩

/-- C5: the created post's status is `published` iff the body's `status`
field is exactly the string `"published"` (anything else, absence
included, yields `draft`), and `publishedOn` is stamped with the current
time exactly when the status resolves to `published`, else absent. -/
theorem customPostsPOST_publish_coercion (store : Store) (now : String) (body : CreateBody) :
    ((customPostsPOST store now body).2.created.status = Status.published ↔
      body.status = some "published") ∧
    (customPostsPOST store now body).2.created.publishedOn =
      (if (customPostsPOST store now body).2.created.status = Status.published
       then some now else none) := by
  by_cases h : body.status = some "published" <;> simp [customPostsPOST, h]

/-- The two status values partition any list of posts: the published
count plus the draft count is the length. -/
theorem filter_published_add_filter_draft (l : List Post) :
    (l.filter (fun p => p.status = Status.published)).length +
      (l.filter (fun p => p.status = Status.draft)).length = l.length := by
  induction l with
  | nil => rfl
  | cons p l ih =>
    cases h : p.status <;> simp [List.filter_cons, h] <;> omega

/-- The published and draft counts of the stats endpoint sum to the
capped read size. -/
theorem statsResponse_sum (posts : List Post) (now : String) :
    (postsStatsEndpoint posts now).published + (postsStatsEndpoint posts now).draft =
      min 1000 posts.length := by
  show ((posts.take 1000).filter _).length + ((posts.take 1000).filter _).length = _
  rw [filter_published_add_filter_draft, List.length_take]

/-- C2: whenever the posts collection holds at most 1000 posts, the
stats response satisfies `total = published + draft`; above the cap the
equality is violated and `published + draft ≤ 1000`. -/
theorem stats_sum_iff_within_cap (posts : List Post) (now : String) :
    (posts.length ≤ 1000 →
      (postsStatsEndpoint posts now).total =
        (postsStatsEndpoint posts now).published + (postsStatsEndpoint posts now).draft) ∧
    (1000 < posts.length →
      (postsStatsEndpoint posts now).published + (postsStatsEndpoint posts now).draft ≤ 1000 ∧
      (postsStatsEndpoint posts now).total ≠
        (postsStatsEndpoint posts now).published + (postsStatsEndpoint posts now).draft) := by
  have htot : (postsStatsEndpoint posts now).total = posts.length := rfl
  constructor
  · intro h
    rw [htot, statsResponse_sum, Nat.min_eq_right h]
  · intro h
    rw [htot, statsResponse_sum, Nat.min_eq_left (Nat.le_of_lt h)]
    exact ⟨Nat.le_refl 1000, by omega⟩

/-- C2 (witness): at a concrete two-post state the stats sum to the
total, and at a concrete 1001-post state the counts sum to at most 1000
while the total differs. -/
theorem stats_sum_iff_within_cap_witness :
    ((postsStatsEndpoint smallPosts "t").total =
      (postsStatsEndpoint smallPosts "t").published +
        (postsStatsEndpoint smallPosts "t").draft) ∧
    ((postsStatsEndpoint bigPosts "t").published +
        (postsStatsEndpoint bigPosts "t").draft ≤ 1000 ∧
      (postsStatsEndpoint bigPosts "t").total ≠
        (postsStatsEndpoint bigPosts "t").published +
          (postsStatsEndpoint bigPosts "t").draft) :=
  ⟨(stats_sum_iff_within_cap smallPosts "t").1 (by decide),
   (stats_sum_iff_within_cap bigPosts "t").2
     (by simp [bigPosts, List.length_map, List.length_range])⟩

/-- C10: the stats `total` is the store's full document count, not the
capped read, whereas `published` and `draft` are computed only over the
at-most-1000 returned documents; hence above the cap the total strictly
exceeds their sum. -/
theorem stats_total_uncapped (posts : List Post) (now : String) :
    (postsStatsEndpoint posts now).total = posts.length ∧
    (postsStatsEndpoint posts now).published =
      ((posts.take 1000).filter (fun p => p.status = Status.published)).length ∧
    (postsStatsEndpoint posts now).draft =
      ((posts.take 1000).filter (fun p => p.status = Status.draft)).length ∧
    (1000 < posts.length →
      (postsStatsEndpoint posts now).published + (postsStatsEndpoint posts now).draft <
        (postsStatsEndpoint posts now).total) := by
  refine ⟨rfl, rfl, rfl, fun h => ?_⟩
  have htot : (postsStatsEndpoint posts now).total = posts.length := rfl
  rw [htot, statsResponse_sum, Nat.min_eq_left (Nat.le_of_lt h)]
  exact h

/-- C10 (witness): at a concrete 1001-post state the counts sum strictly
below the total. -/
theorem stats_total_uncapped_witness :
    (postsStatsEndpoint bigPosts "t").published + (postsStatsEndpoint bigPosts "t").draft <
      (postsStatsEndpoint bigPosts "t").total :=
  (stats_total_uncapped bigPosts "t").2.2.2
    (by simp [bigPosts, List.length_map, List.length_range])

/-- When no processed draft fails, the update loop publishes every
draft in order and reports the accumulated count. -/
theorem publishAllLoop_ok (fails : Nat → Bool) (drafts : List Post) :
    ∀ (state : List Post) (n : Nat),
      (∀ p ∈ drafts, fails p.id = false) →
      publishAllLoop fails drafts state n =
        (drafts.foldl (fun s p => updatePostStatus s p.id Status.published) state,
         Except.ok { message := "Published " ++ toString (n + drafts.length) ++ " posts"
                   , publishedCount := n + drafts.length }) := by
  induction drafts with
  | nil => intro state n _; simp [publishAllLoop]
  | cons post rest ih =>
    intro state n h
    have hp : fails post.id = false := h post (by simp)
    rw [publishAllLoop, if_neg (by rw [hp]; exact Bool.false_ne_true)]
    rw [ih _ (n + 1) (fun p hp' => h p (by simp [hp']))]
    have harith : n + 1 + rest.length = n + (rest.length + 1) := by omega
    simp [harith]

/-- The first failing update stops the loop: the state keeps exactly the
updates applied before the failure and the error propagates. -/
theorem publishAllLoop_error (fails : Nat → Bool) (pre : List Post) :
    ∀ (q : Post) (rest state : List Post) (n : Nat),
      (∀ p ∈ pre, fails p.id = false) → fails q.id = true →
      publishAllLoop fails (pre ++ q :: rest) state n =
        (pre.foldl (fun s p => updatePostStatus s p.id Status.published) state,
         Except.error "update failed") := by
  induction pre with
  | nil =>
    intro q rest state n _ hq
    rw [List.nil_append, publishAllLoop, if_pos hq]
    rfl
  | cons p pre ih =>
    intro q rest state n h hq
    have hp : fails p.id = false := h p (by simp)
    rw [List.cons_append, publishAllLoop, if_neg (by rw [hp]; exact Bool.false_ne_true)]
    exact ih q rest _ (n + 1) (fun x hx => h x (by simp [hx])) hq

/-- C3: the publish-all handler reads at most 100 posts, all of status
draft, and updates them strictly sequentially.  When every update
succeeds it returns the message and a `publishedCount` equal to the
number of drafts read; when the update of the k-th draft fails (the
read decomposing as `pre ++ q :: rest` with every update in `pre`
succeeding and `q`'s failing), the updates of `pre` stay applied with no
rollback, the posts of `rest` are untouched, and the error propagates
instead of a success body. -/
theorem publishAllEndpoint_contract (fails : Nat → Bool) (posts : List Post) :
    (publishAllDrafts posts).length ≤ 100 ∧
    (∀ p ∈ publishAllDrafts posts, p.status = Status.draft) ∧
    ((∀ p ∈ publishAllDrafts posts, fails p.id = false) →
      publishAllEndpoint fails posts =
        ((publishAllDrafts posts).foldl
            (fun s p => updatePostStatus s p.id Status.published) posts,
         Except.ok {
           message := "Published " ++ toString (publishAllDrafts posts).length ++ " posts",
           publishedCount := (publishAllDrafts posts).length })) ∧
    (∀ (pre : List Post) (q : Post) (rest : List Post),
      publishAllDrafts posts = pre ++ q :: rest →
      (∀ p ∈ pre, fails p.id = false) → fails q.id = true →
      publishAllEndpoint fails posts =
        (pre.foldl (fun s p => updatePostStatus s p.id Status.published) posts,
         Except.error "update failed")) := by
  refine ⟨List.length_take_le 100 _, fun p hp => ?_, fun h => ?_, fun pre q rest hsplit h hq => ?_⟩
  · have hp' : p ∈ posts.filter (fun p => p.status = Status.draft) :=
      List.mem_of_mem_take hp
    simpa using (List.mem_filter.mp hp').2
  · show publishAllLoop fails (publishAllDrafts posts) posts 0 = _
    rw [publishAllLoop_ok fails (publishAllDrafts posts) posts 0 h]
    simp
  · show publishAllLoop fails (publishAllDrafts posts) posts 0 = _
    rw [hsplit]
    exact publishAllLoop_error fails pre q rest posts 0 h hq

/-- C3 (witness): on a concrete three-draft state whose second update
fails, the handler leaves the first draft published and propagates the
error. -/
theorem publishAllEndpoint_contract_witness :
    publishAllEndpoint failSecond [draftPost 0, draftPost 1, draftPost 2] =
      ([draftPost 0].foldl (fun s p => updatePostStatus s p.id Status.published)
         [draftPost 0, draftPost 1, draftPost 2],
       Except.error "update failed") :=
  (publishAllEndpoint_contract failSecond [draftPost 0, draftPost 1, draftPost 2]).2.2.2
    [draftPost 0] (draftPost 1) [draftPost 2] (by decide) (by decide) (by decide)

/-- Folding the sequential status update over a list of posts equals a
single pass that publishes every document whose id occurs in the list. -/
theorem foldl_update_eq_map (l : List Post) :
    ∀ state : List Post,
      l.foldl (fun s p => updatePostStatus s p.id Status.published) state =
        state.map (fun q =>
          if l.any (fun p => p.id = q.id) then { q with status := Status.published }
          else q) := by
  induction l with
  | nil =>
    intro state
    rw [List.foldl_nil]
    exact (List.map_id' state).symm
  | cons p l ih =>
    intro state
    rw [List.foldl_cons, ih, updatePostStatus, List.map_map]
    refine congrArg (fun f => state.map f) ?_
    funext q
    simp only [Function.comp_apply, List.any_cons]
    by_cases hq : q.id = p.id
    · simp [hq]
    · have hpq : ¬p.id = q.id := fun e => hq e.symm
      simp [hq, hpq]

/-- After a failure-free publish-all run on a state with at most 100
drafts, every stored document is published. -/
theorem publishAll_state_all_published (posts : List Post)
    (h : (posts.filter (fun p => p.status = Status.draft)).length ≤ 100) :
    ∀ q ∈ (publishAllEndpoint noFail posts).1, q.status = Status.published := by
  intro q hq
  have hall : publishAllDrafts posts = posts.filter (fun p => p.status = Status.draft) :=
    List.take_of_length_le h
  have hs : (publishAllEndpoint noFail posts).1 =
      posts.map (fun q =>
        if (publishAllDrafts posts).any (fun p => p.id = q.id)
        then { q with status := Status.published } else q) := by
    show (publishAllLoop noFail (publishAllDrafts posts) posts 0).1 = _
    rw [publishAllLoop_ok noFail (publishAllDrafts posts) posts 0 (fun p _ => rfl)]
    exact foldl_update_eq_map _ posts
  rw [hs] at hq
  obtain ⟨q₀, hq₀, rfl⟩ := List.mem_map.mp hq
  by_cases hc : (publishAllDrafts posts).any (fun p => p.id = q₀.id) = true
  · simp [hc]
  · cases hstat : q₀.status with
    | published => simp [hc, hstat]
    | draft =>
      exact absurd
        (List.any_eq_true.mpr
          ⟨q₀, by rw [hall]; exact List.mem_filter.mpr ⟨hq₀, by simp [hstat]⟩, by simp⟩)
        hc

/-- C4 (amended): repeating publish-all with no intervening draft
creation and no failing update yields `publishedCount = 0` on the second
call, provided the initial state holds at most 100 drafts — the read
cap.  (Above the cap the leftover drafts are published on the second
pass, refuting the unconditional claim.) -/
theorem publishAll_repeat_zero (posts : List Post)
    (h : (posts.filter (fun p => p.status = Status.draft)).length ≤ 100) :
    (publishAllEndpoint noFail (publishAllEndpoint noFail posts).1).2 =
      Except.ok { message := "Published 0 posts", publishedCount := 0 } := by
  have hnil : (publishAllEndpoint noFail posts).1.filter
      (fun p => p.status = Status.draft) = [] :=
    List.filter_eq_nil_iff.mpr (fun q hq => by
      have hpub := publishAll_state_all_published posts h q hq
      simp [hpub])
  have hdrafts : publishAllDrafts (publishAllEndpoint noFail posts).1 = [] := by
    unfold publishAllDrafts findPostsByStatus
    rw [hnil]
    rfl
  show (publishAllLoop noFail
    (publishAllDrafts (publishAllEndpoint noFail posts).1)
    (publishAllEndpoint noFail posts).1 0).2 = _
  rw [hdrafts]
  rfl

/-- C4 (witness): on the concrete two-post state the second call
returns count 0. -/
theorem publishAll_repeat_zero_witness :
    (publishAllEndpoint noFail (publishAllEndpoint noFail smallPosts).1).2 =
      Except.ok { message := "Published 0 posts", publishedCount := 0 } :=
  publishAll_repeat_zero smallPosts (by decide)

set_option maxRecDepth 100000 in
set_option maxHeartbeats 1000000 in
/-- C4 (counterexample): starting from 101 drafts — one past the 100
read cap — the second failure-free publish-all call still finds a
leftover draft, so it does not report `publishedCount = 0`. -/
theorem publishAll_repeat_above_cap_refuted :
    ((publishAllEndpoint noFail (publishAllEndpoint noFail manyDrafts).1).2.toOption.map
      (fun r => r.publishedCount)) ≠ some 0 := by decide

/-- C6 (counterexample): the reuse branch runs only under the truthiness
test `existing.docs[0]?.id`.  From a store with no "API Bot" author
whose next fresh identifier is the falsy 0, the first call stores the
bot author under id 0, the second call's lookup finds it but the falsy
id fails the test, and a duplicate is created: two "API Bot" authors
remain, not exactly one. -/
theorem apiBot_dup_at_zero_id :
    ((customPostsPOST (customPostsPOST emptyStore "t1" {}).1 "t2" {}).1.authors.filter
        (fun a => a.name = "API Bot")).length = 2 ∧
    ((customPostsPOST (customPostsPOST emptyStore "t1" {}).1 "t2" {}).1.authors.filter
        (fun a => a.name = "API Bot")).length ≠ 1 := by
  refine ⟨by decide, by decide⟩

/-- C6 (amended): starting from a state with no author named "API Bot"
and whose next fresh identifier is truthy (nonzero — as the identifiers
of the real store are), two sequential custom creates that supply no
`authorId` leave exactly one "API Bot" author in the store — the first
call creates it, the second finds it by exact name match and reuses it
because its id passes the truthiness test — and each created post
references that author's identifier. -/
theorem apiBot_dedup (store : Store) (now₁ now₂ : String) (b₁ b₂ : CreateBody)
    (h0 : ∀ a ∈ store.authors, ¬a.name = "API Bot")
    (hfresh : store.nextId ≠ 0)
    (h1 : b₁.authorId = none) (h2 : b₂.authorId = none) :
    ((customPostsPOST (customPostsPOST store now₁ b₁).1 now₂ b₂).1.authors.filter
        (fun a => a.name = "API Bot")).map (fun a => a.id) = [store.nextId] ∧
    (customPostsPOST store now₁ b₁).2.created.author = store.nextId ∧
    (customPostsPOST (customPostsPOST store now₁ b₁).1 now₂ b₂).2.created.author =
      store.nextId := by
  have hfilter : store.authors.filter (fun a => a.name = "API Bot") = [] :=
    List.filter_eq_nil_iff.mpr (fun a ha => by simpa using h0 a ha)
  refine ⟨?_, ?_, ?_⟩ <;>
    simp [customPostsPOST, resolveAuthorId, h1, h2, hfilter, hfresh, List.filter_append]

/-- C6 (witness): from the empty store with fresh identifier 1, two
creates with empty bodies leave exactly one "API Bot" author with id 1,
referenced by both posts. -/
theorem apiBot_dedup_witness :
    ((customPostsPOST (customPostsPOST initStore "t1" {}).1 "t2" {}).1.authors.filter
        (fun a => a.name = "API Bot")).map (fun a => a.id) = [initStore.nextId] ∧
    (customPostsPOST initStore "t1" {}).2.created.author = initStore.nextId ∧
    (customPostsPOST (customPostsPOST initStore "t1" {}).1 "t2" {}).2.created.author =
      initStore.nextId :=
  apiBot_dedup initStore "t1" "t2" {} {} (by simp [initStore]) (by simp [initStore]) rfl rfl

/-- C8: the read limit passed to the store by the custom GET is 10 when
the `limit` query parameter is absent, its numeric value when it parses
to a finite number, and 10 when it parses to a non-finite value; the
read uses depth 1, and the response body is the page result spread
verbatim plus the `source` tag and the fixed note. -/
theorem customPostsGET_contract (jsNumber : String → JsNumber)
    (findStore : FindQuery → FindResult) (limitParam : Option String)
    (h10 : jsNumber "10" = JsNumber.finite 10) :
    (limitParam = none → (customPostsGET jsNumber findStore limitParam).1.limit = 10) ∧
    (∀ s v, limitParam = some s → jsNumber s = JsNumber.finite v →
      (customPostsGET jsNumber findStore limitParam).1.limit = v) ∧
    (∀ s, limitParam = some s → jsNumber s = JsNumber.nonFinite →
      (customPostsGET jsNumber findStore limitParam).1.limit = 10) ∧
    (customPostsGET jsNumber findStore limitParam).1.depth = 1 ∧
    (customPostsGET jsNumber findStore limitParam).1.collection = "posts" ∧
    (customPostsGET jsNumber findStore limitParam).2 =
      { source := "custom-api"
      , note := "This response is from /api/custom/posts (custom route), not Payload's built-in CRUD."
      , docs := (findStore (customPostsGET jsNumber findStore limitParam).1).docs
      , totalDocs := (findStore (customPostsGET jsNumber findStore limitParam).1).totalDocs } := by
  refine ⟨fun hnone => ?_, fun s v hs hv => ?_, fun s hs hv => ?_, rfl, rfl, rfl⟩
  · simp [customPostsGET, customPostsGETQuery, hnone, h10]
  · simp [customPostsGET, customPostsGETQuery, hs, hv]
  · simp [customPostsGET, customPostsGETQuery, hs, hv]

/-- C8 (witness): with a concrete number conversion and store, the limit
is the parsed value 7 for `?limit=7`. -/
theorem customPostsGET_contract_witness :
    (customPostsGET jsNumberTest findStoreTest (some "7")).1.limit = 7 :=
  (customPostsGET_contract jsNumberTest findStoreTest (some "7")
    (by simp [jsNumberTest])).2.1 "7" 7 rfl (by simp [jsNumberTest])

end PayloadMaster
